import Mathlib

/-!
Shallow embedding of the workflow execution engine of the `agents` repository
(`agentsapp/agent_builder.py`, `agentsapp/utils.py`, `agentsapp/views.py`),
together with theorems settling the specification claims about it.

The graph engine itself (LangGraph) is an external library: where a claim is
decided by engine behaviour that is not in the repository sources, the engine
is modelled from the specification text and the definition says so in its doc
comment. All node functions, the routing function, `run_agent_with_input` and
the resume view are translated directly from the repository sources.
-/

namespace AgentsApp

/-- Message roles, from the spec data model (`user|assistant|system|tool`) and
the LangChain message classes used in the sources. -/
inductive Role where
  | user
  | assistant
  | system
  | tool
  deriving DecidableEq, Repr

/-- A chat message: role plus content, as used by the node functions. -/
structure Message where
  role : Role
  content : String
  deriving DecidableEq, Repr

/-- The LangGraph `State` TypedDict from `agentsapp/utils.py` lines 38-43:
`customer_id`, `messages` (annotated with the `add_messages` append reducer),
`loaded_memory`, `remaining_steps`. `customer_id` is `none` when the key is
absent or holds Python `None`. -/
structure AgentState where
  customer_id : Option String
  messages : List Message
  loaded_memory : String
  remaining_steps : Nat
  deriving DecidableEq, Repr

/-- A partial state update returned by a node: a sparse mapping of fields to
change. A `none`/`[]` field is one the delta does not name. `remaining_steps`
is engine-managed and never part of a node delta in the sources. -/
structure StateDelta where
  customer_id : Option String
  messages : List Message
  loaded_memory : Option String
  deriving DecidableEq, Repr

/-- The empty delta, i.e. a node returning `{}`. -/
def StateDelta.empty : StateDelta :=
  { customer_id := none, messages := [], loaded_memory := none }

/-- Modelled from the spec: the engine's merge of a node delta into State
(the `add_messages` reducer and field merge live in the LangGraph library,
not under `src/`). Spec §3: field-level overwrite for every field a delta
names, except `messages`, which appends — new messages are concatenated,
never replacing prior ones; fields the delta does not name are unchanged. -/
def mergeDelta (s : AgentState) (d : StateDelta) : AgentState :=
  { customer_id :=
      match d.customer_id with
      | some v => some v
      | none => s.customer_id
    messages := s.messages ++ d.messages
    loaded_memory :=
      match d.loaded_memory with
      | some v => v
      | none => s.loaded_memory
    remaining_steps := s.remaining_steps }

/-- The `verify_info` node from `agent_builder.py` lines 408-437. When
`state.get("customer_id") is None` it sets `customer_id = "1"` ("For testing
purposes, always use customer ID 1") and appends the confirmation
SystemMessage; otherwise it returns the empty delta. The `except` branch of
the source is unreachable in this total embedding (the `try` body cannot
raise) and is not represented. -/
def verify_info (state : AgentState) : StateDelta :=
  match state.customer_id with
  | none =>
      let customer_id := "1"
      { customer_id := some customer_id
        messages := [⟨Role.system,
          "Thank you for contacting us! I'll help you with your request. Using account ID "
            ++ customer_id ++ "."⟩]
        loaded_memory := none }
  | some _ => StateDelta.empty

/-- The conditional routing function `should_interrupt` from
`agent_builder.py` lines 552-556: `"continue"` when `customer_id` is set,
`"interrupt"` otherwise. -/
def should_interrupt (state : AgentState) : String :=
  match state.customer_id with
  | some _ => "continue"
  | none => "interrupt"

/-- The label-to-node map of the conditional edge out of `verify_info`,
from `agent_builder.py` lines 570-577. -/
def verifyInfoLabelMap : List (String × String) :=
  [("continue", "load_memory"), ("interrupt", "human_input")]

/-- The `load_memory` node from `agent_builder.py` lines 457-472, with the
external memory lookup `load_user_memory` passed in as an opaque collaborator
and the per-run config `user_id` as an optional argument. -/
def load_memory (loadUserMemory : String → String) (config_user_id : Option String)
    (state : AgentState) : StateDelta :=
  let user_id :=
    match config_user_id with
    | some u => if u = "" then (state.customer_id.getD "") else u
    | none => state.customer_id.getD ""
  if user_id = "" then
    { customer_id := none, messages := [], loaded_memory := some "" }
  else
    { customer_id := none, messages := [], loaded_memory := some (loadUserMemory user_id) }

/-- A fresh-thread initial state as produced by a first invocation: no
`customer_id`, the caller's message merged into `messages`, empty memory. -/
def freshState (userMsg : String) (budget : Nat) : AgentState :=
  { customer_id := none
    messages := [⟨Role.user, userMsg⟩]
    loaded_memory := ""
    remaining_steps := budget }

/-! ### String helpers mirroring the Python primitives used by the nodes -/

/-- Python `str.lower()` restricted to the ASCII inputs these nodes handle. -/
def strLower (s : String) : String := String.mk (s.toList.map Char.toLower)

/-- Helper for `splitWords`: accumulate the current word (reversed). -/
def splitWordsAux : List Char → List Char → List String
  | [], acc => if acc.isEmpty then [] else [String.mk acc.reverse]
  | c :: cs, acc =>
      if c.isWhitespace then
        if acc.isEmpty then splitWordsAux cs []
        else String.mk acc.reverse :: splitWordsAux cs []
      else splitWordsAux cs (c :: acc)

/-- Python `str.split()` with no argument: split on whitespace runs,
discarding empty pieces. -/
def splitWords (s : String) : List String := splitWordsAux s.toList []

/-- Python `list.index` as an `Option`: index of the first occurrence. -/
def listIdxOf : List String → String → Option Nat
  | [], _ => none
  | w :: ws, t => if w = t then some 0 else (listIdxOf ws t).map (· + 1)

/-- Does `needle` match at the head of `hay`? -/
def matchesAt : List Char → List Char → Bool
  | [], _ => true
  | _ :: _, [] => false
  | a :: as, b :: bs => a == b && matchesAt as bs

/-- Does `needle` occur anywhere in `hay`? -/
def hasSubAux : List Char → List Char → Bool
  | needle, [] => matchesAt needle []
  | needle, b :: bs => matchesAt needle (b :: bs) || hasSubAux needle bs

/-- Python `needle in hay` on strings: substring containment. -/
def strHasSub (hay needle : String) : Bool := hasSubAux needle.toList hay.toList

/-- Word characters for the regex word boundary, ASCII fragment. -/
def isWordChar (c : Char) : Bool := c.isAlpha || c.isDigit || c == '_'

/-- Take the maximal leading run of lowercase letters (regex [a-z]*). -/
def takeLowerRun : List Char → List Char × List Char
  | [] => ([], [])
  | c :: cs =>
      if c.isLower then
        let p := takeLowerRun cs
        (c :: p.1, p.2)
      else ([], c :: cs)

theorem takeLowerRun_snd_length (cs : List Char) : (takeLowerRun cs).2.length ≤ cs.length := by
  induction cs with
  | nil => simp [takeLowerRun]
  | cons c cs ih =>
      by_cases h : c.isLower = true
      · simp only [takeLowerRun, h, if_pos]
        exact le_trans ih (Nat.le_succ _)
      · simp [takeLowerRun, h]

/-- Scanner for `re.findall(r'\b[A-Z][a-z]*\b', s)` as used by
`music_assistant`: at a position preceded by a non-word character (or the
start), an uppercase letter followed by a maximal lowercase run counts as a
match when the character after the run is not a word character; matches are
non-overlapping and scanning otherwise advances one character. -/
def capWordsAux : Bool → List Char → List String
  | _, [] => []
  | prevIsWord, c :: cs =>
      if !prevIsWord && c.isUpper then
        let p := takeLowerRun cs
        if p.2.head?.all (fun r => !isWordChar r) then
          String.mk (c :: p.1) :: capWordsAux true p.2
        else
          capWordsAux (isWordChar c) cs
      else
        capWordsAux (isWordChar c) cs
termination_by _ l => l.length
decreasing_by
  all_goals simp only [List.length_cons]
  · exact Nat.lt_succ_of_le (takeLowerRun_snd_length _)
  · exact Nat.lt_succ_self _
  · exact Nat.lt_succ_self _

/-- `re.findall(r'\b[A-Z][a-z]*\b', s)` from `music_assistant` line 111. -/
def capWords (s : String) : List String := capWordsAux false s.toList

/-- Python `''.join(c for c in s if c.isdigit())`. -/
def digitsOnly (s : String) : String := String.mk (s.toList.filter Char.isDigit)

/-! ### The sub-assistant nodes (music and invoice) -/

/-- A record of one tool invocation performed by a node. The tools themselves
are opaque collaborators (`tool(args) -> result`); a node embedding receives
their behaviour as a `toolRun` argument. -/
structure ToolCall where
  name : String
  args : List String
  deriving DecidableEq, Repr

/-- The catch-all apology of `music_assistant`'s outer `except` handler. -/
def musicApology : String :=
  "I'm sorry, I'm having trouble processing your music-related request right now. Please try again later."

/-- Outcome of `music_assistant`'s keyword-based tool selection. -/
inductive MusicSelection where
  | tool (name : String) (param : String)
  | noTool
  | raised
  deriving DecidableEq, Repr

/-- The tool-selection logic of `music_assistant` (`agent_builder.py` lines
95-147), translated clause by clause. `raised` is the `ValueError` that
`list.index` throws in the song/track branch when the keyword occurs only as
a substring and not as a standalone word (there is no membership guard
there, unlike the artist/genre branches); it escapes to the node's outer
`except` handler. -/
def musicSelect (user_input : String) : MusicSelection :=
  let uil := strLower user_input
  if strHasSub uil "artist" then
    let words := splitWords uil
    let param :=
      match listIdxOf words "artist" with
      | some i =>
          if i + 1 < words.length then words.getD (i + 1) ""
          else match capWords user_input with
            | a :: _ => a
            | [] => "Queen"
      | none =>
          match capWords user_input with
          | a :: _ => a
          | [] => "Queen"
    if strHasSub uil "album" then .tool "get_albums_by_artist" param
    else .tool "get_tracks_by_artist" param
  else if strHasSub uil "genre" then
    let words := splitWords uil
    let param :=
      match listIdxOf words "genre" with
      | some i => if i + 1 < words.length then words.getD (i + 1) "" else "Rock"
      | none => "Rock"
    .tool "get_songs_by_genre" param
  else if strHasSub uil "song" || strHasSub uil "track" then
    let words := splitWords user_input
    let wordsLower := splitWords uil
    let idxOpt :=
      if strHasSub uil "song" then listIdxOf wordsLower "song"
      else listIdxOf wordsLower "track"
    match idxOpt with
    | none => .raised
    | some i =>
        let param := if i + 1 < words.length then words.getD (i + 1) "" else "The"
        .tool "check_for_songs" param
  else .noTool

/-- The user-input extraction shared by the sub-assistants: the content of
the last message, or the node's fallback text when there are none
(`if "messages" in state and state["messages"]`). -/
def lastUserInput (state : AgentState) (fallback : String) : String :=
  match state.messages.getLast? with
  | some m => m.content
  | none => fallback

/-- A delta consisting of a single assistant message, the shape every
sub-assistant returns. -/
def assistantDelta (response : String) : StateDelta :=
  { customer_id := none, messages := [⟨Role.assistant, response⟩], loaded_memory := none }

/-- The `music_assistant` node (`agent_builder.py` lines 82-174). `toolRun`
is the opaque music-tool collaborator (`Except.error` models a raised tool
exception). Returns the node's delta together with the tool calls it made.
The `loaded_memory` read on lines 84-87 does not influence the returned
delta in the keyword-based implementation and the `print` calls are
side-effect free logging, so neither appears here. -/
def music_assistant (toolRun : String → List String → Except String String)
    (state : AgentState) : StateDelta × List ToolCall :=
  match musicSelect (lastUserInput state "Tell me about music") with
  | .raised => (assistantDelta musicApology, [])
  | .noTool =>
      (assistantDelta "I can help you find information about music in our catalog. You can ask about artists, albums, songs, or genres.", [])
  | .tool name param =>
      match toolRun name [param] with
      | .ok res =>
          if res ≠ "" then
            (assistantDelta ("Here's what I found about " ++ param ++ ":\n\n" ++ res),
             [⟨name, [param]⟩])
          else
            (assistantDelta ("I couldn't find any information about " ++ param ++ " in our music catalog."),
             [⟨name, [param]⟩])
      | .error _ =>
          (assistantDelta ("I tried to search for information about " ++ param ++ ", but encountered an error. Could you please try a different search or rephrase your question?"),
           [⟨name, [param]⟩])

/-- The `invoice_assistant` node (`agent_builder.py` lines 226-292). Line 238
resolves the account as `state.get("customer_id", "1")`: the hardcoded
default `"1"` whenever the field is absent. When the employee tool is
selected but the extracted invoice id is empty (falsy), the source calls the
two-parameter tool with a single argument, raising a `TypeError` that the
inner handler converts into the apology — no tool body runs, so no call is
recorded. -/
def invoice_assistant (toolRun : String → List String → Except String String)
    (state : AgentState) : StateDelta × List ToolCall :=
  let uil := strLower (lastUserInput state "Tell me about my invoices")
  let customer_id := state.customer_id.getD "1"
  let formatResult : Except String String → String := fun r =>
    match r with
    | .ok res =>
        if res ≠ "" then "Here's what I found about your invoices:\n\n" ++ res
        else "I couldn't find any invoice information for your account."
    | .error _ =>
        "I tried to retrieve your invoice information, but encountered an error. Could you please try again later?"
  let runSingle : String → StateDelta × List ToolCall := fun name =>
    (assistantDelta (formatResult (toolRun name [customer_id])), [⟨name, [customer_id]⟩])
  if strHasSub uil "price" || strHasSub uil "expensive" then
    runSingle "get_invoices_sorted_by_unit_price"
  else if strHasSub uil "employee" || strHasSub uil "support" then
    let words := splitWords uil
    let invoice_id :=
      match listIdxOf words "invoice" with
      | some i => if i + 1 < words.length then digitsOnly (words.getD (i + 1) "") else "1"
      | none => "1"
    if invoice_id ≠ "" then
      (assistantDelta (formatResult
          (toolRun "get_employee_by_invoice_and_customer" [invoice_id, customer_id])),
       [⟨"get_employee_by_invoice_and_customer", [invoice_id, customer_id]⟩])
    else
      (assistantDelta "I tried to retrieve your invoice information, but encountered an error. Could you please try again later?",
       [])
  else
    runSingle "get_invoices_by_customer_sorted_by_date"

/-! ### `run_agent_with_input` (`agent_builder.py` lines 591-668)

The compiled LangGraph is opaque to this wrapper: it is modelled as a
function from the input it is invoked with to an outcome — a successful
result (the final state's message list), an exception carrying an
`interrupt_message` attribute, or any other exception. -/

/-- What `agent_graph.invoke` is called with: `Command(resume=payload)` or an
initial `{"messages": [...]}` input. -/
inductive GraphInput where
  | resumeCmd (payload : String)
  | initialMessages (msgs : List Message)
  deriving DecidableEq, Repr

/-- Outcome of one `agent_graph.invoke` call: normal return, an exception
with an `interrupt_message` attribute, or any other exception (message =
`str(e)`). -/
inductive InvokeOutcome where
  | success (messages : List Message)
  | interruptExc (msg : String)
  | errorExc (msg : String)
  deriving DecidableEq, Repr

/-- The dict returned by `run_agent_with_input`: `status` is `"complete"`,
`"interrupted"` or `"error"`; `result` is present exactly on completion,
`message` exactly on interrupt/error; `thread_id` is always present. -/
structure RunAgentResult where
  status : String
  result : Option (List Message)
  message : Option String
  thread_id : String
  deriving DecidableEq, Repr

/-- Lines 606-607: `if not thread_id: thread_id = str(uuid.uuid4())` — a
missing or empty (falsy) thread id is replaced by the freshly drawn one. -/
def resolveTid (thread_id : Option String) (freshId : String) : String :=
  match thread_id with
  | none => freshId
  | some t => if t = "" then freshId else t

/-- Lines 644-668: the outer `try`/`except` maps the final invoke outcome to
the returned dict — `"complete"` with the result, `"interrupted"` with the
message when the exception has an `interrupt_message` attribute, `"error"`
with `str(e)` otherwise. -/
def outcomeToResult (o : InvokeOutcome) (tid : String) : RunAgentResult :=
  match o with
  | .success res =>
      { status := "complete", result := some res, message := none, thread_id := tid }
  | .interruptExc m =>
      { status := "interrupted", result := none, message := some m, thread_id := tid }
  | .errorExc m =>
      { status := "error", result := none, message := some m, thread_id := tid }

/-- `run_agent_with_input` (`agent_builder.py` lines 591-668). `invoke` is
the opaque compiled graph; `freshId` stands for the `str(uuid.uuid4())`
drawn when no thread id is supplied (`if not thread_id` also treats the
empty string as absent). The inner `try` around the resume command catches
every exception and falls back to a fresh invocation with the resume payload
wrapped as a `HumanMessage`; the outer handler maps the final outcome to the
three statuses. The `config`/`user_id` plumbing does not affect the returned
dict and is omitted. -/
def run_agent_with_input (invoke : GraphInput → InvokeOutcome)
    (user_input : String) (thread_id : Option String) (freshId : String)
    (resume_input : Option String) : RunAgentResult :=
  let tid := resolveTid thread_id freshId
  let attempt : InvokeOutcome :=
    match resume_input with
    | some r =>
        match invoke (.resumeCmd r) with
        | .success res => .success res
        | .interruptExc _ => invoke (.initialMessages [⟨Role.user, r⟩])
        | .errorExc _ => invoke (.initialMessages [⟨Role.user, r⟩])
    | none => invoke (.initialMessages [⟨Role.user, user_input⟩])
  outcomeToResult attempt tid

/-! ### `ChatResumeView.post` (`views.py` lines 572-760)

Only the engine-facing control flow is embedded: which
`run_agent_with_input` calls the view issues, in which order, with which
arguments. Database writes (`Message.objects.create`) and response
formatting are external to the engine. -/

/-- The `(user_input, resume_input)` pair of one `run_agent_with_input` call
issued by the resume view. The view passes `None` as `user_input` when
resuming, hence the `Option`. -/
structure EngineCall where
  user_input : Option String
  resume_input : Option String
  deriving DecidableEq, Repr

/-- The sequence of `run_agent_with_input` calls `ChatResumeView.post`
issues for one request (`views.py` lines 600-645): first the resume call;
then, if and only if that call returns `status == "error"`, a second, fresh
invocation with the user's message as input ("Try again with a fresh
conversation"). The view's `user_input` of `None` on the resume path is
never read by `run_agent_with_input` (the resume branch uses the payload),
so the embedded first call passes `resume_input` only. -/
def chatResumeEngineCalls (invoke : GraphInput → InvokeOutcome)
    (thread_id message : String) : List EngineCall :=
  let result := run_agent_with_input invoke "" (some thread_id) thread_id (some message)
  if result.status = "error" then
    [⟨none, some message⟩, ⟨some message, none⟩]
  else
    [⟨none, some message⟩]

/-! ### The engine loop, modelled from the spec

The execution loop itself (node sequencing, conditional routing, the
interrupt/suspend mechanism and the `remaining_steps` budget) lives in the
LangGraph library, not under `src/`; the repository only declares
`State.remaining_steps` and builds graphs. The definitions below are
modelled from spec §4.2 (execution algorithm steps 4-8) and §4.3. -/

/-- What a node execution produces: a delta, or a suspension request from
the `suspend`/`interrupt` primitive (spec §4.3). -/
inductive NodeOutcome where
  | delta (d : StateDelta)
  | suspend (prompt : String)

/-- Routing out of a node: an unconditional edge, or a conditional edge with
a decision function and a label-to-node map (spec §3 Edge, §4.2). -/
inductive NodeRoute where
  | uncond (target : String)
  | cond (decide : AgentState → String) (labelMap : List (String × String))

/-- Modelled from the spec: a compiled graph for the engine loop — node
behaviour and outgoing routing by node name. A `route` of `none` is an
unknown node. The terminal pseudo-node is the name `"END"`. -/
structure SpecGraph where
  exec : String → AgentState → NodeOutcome
  route : String → Option NodeRoute

/-- The terminal pseudo-node name. -/
def endNode : String := "END"

/-- Engine errors from spec §7 that can arise inside the loop. -/
inductive EngineError where
  | stepBudgetExceeded
  | routingError (label : String)
  | unknownNode (name : String)
  deriving DecidableEq, Repr

/-- Terminal status of one run (spec §4.2 / §6 RunResult). -/
inductive RunStatus where
  | completed (s : AgentState)
  | interrupted (prompt : String)
  | failed (e : EngineError)
  deriving DecidableEq, Repr

/-- Result of the engine loop: terminal status plus the number of completed
node executions. -/
structure EngineRunOutcome where
  status : RunStatus
  execCount : Nat
  deriving DecidableEq, Repr

/-- Modelled from the spec: the execution loop, spec §4.2 steps 4-8. Each
iteration decrements `remainingSteps` and fails with
`StepBudgetExceededError` when it reaches zero (step 4, before the node
runs); otherwise the node executes (step 5) — a suspension returns
`Interrupted` — the delta is merged, and routing follows the unconditional
edge or evaluates the decision function on the post-merge state (step 6),
failing with `RoutingError` on an unmatched label; reaching the terminal
node completes the run (step 7). `rem` is the `remainingSteps` budget
threaded as a loop argument; `execs` counts completed node executions. -/
def runLoop (g : SpecGraph) : Nat → String → AgentState → Nat → EngineRunOutcome
  | 0, _, _, execs => ⟨.failed .stepBudgetExceeded, execs⟩
  | rem + 1, cur, s, execs =>
      if rem = 0 then ⟨.failed .stepBudgetExceeded, execs⟩
      else
        match g.exec cur s with
        | .suspend prompt => ⟨.interrupted prompt, execs⟩
        | .delta d =>
            let s2 := mergeDelta s d
            match g.route cur with
            | none => ⟨.failed (.unknownNode cur), execs + 1⟩
            | some (.uncond t) =>
                if t = endNode then ⟨.completed s2, execs + 1⟩
                else runLoop g rem t s2 (execs + 1)
            | some (.cond decide labelMap) =>
                let lbl := decide s2
                match labelMap.lookup lbl with
                | none => ⟨.failed (.routingError lbl), execs + 1⟩
                | some t =>
                    if t = endNode then ⟨.completed s2, execs + 1⟩
                    else runLoop g rem t s2 (execs + 1)

/-- Modelled from the spec: run a graph from `start` on state `s`, with the
budget taken from `s.remaining_steps`. -/
def runSpec (g : SpecGraph) (start : String) (s : AgentState) : EngineRunOutcome :=
  runLoop g s.remaining_steps start s 0

/-- Scenario B's graph: a single node that returns the empty delta and
always routes back to itself. -/
def selfLoopGraph : SpecGraph :=
  { exec := fun _ _ => .delta StateDelta.empty
    route := fun _ => some (.uncond "n") }

/-- The Scenario B initial state: `remainingSteps = 3`, nothing else set. -/
def budget3State : AgentState :=
  { customer_id := none, messages := [], loaded_memory := "", remaining_steps := 3 }

/-! ### Theorems settling the claims -/

/-- Claim C1 (evaluation of the code at the failing input): on a fresh thread
whose State has no `customer_id`, `verify_info` silently sets
`customer_id = "1"`, after which the conditional edge's decision function
returns `"continue"` and routes to `load_memory` — the run never reaches the
`human_input` interrupt, so resuming is never needed. This contradicts the
claimed route `verify_info → human_input` interrupt for fresh threads. -/
theorem C1_fresh_run_bypasses_interrupt :
    (mergeDelta (freshState "Hi" 25) (verify_info (freshState "Hi" 25))).customer_id = some "1"
    ∧ should_interrupt (mergeDelta (freshState "Hi" 25) (verify_info (freshState "Hi" 25)))
        = "continue"
    ∧ verifyInfoLabelMap.lookup
        (should_interrupt (mergeDelta (freshState "Hi" 25) (verify_info (freshState "Hi" 25))))
        = some "load_memory"
    ∧ should_interrupt (mergeDelta (freshState "Hi" 25) (verify_info (freshState "Hi" 25)))
        ≠ "interrupt" := by
  refine ⟨rfl, rfl, rfl, ?_⟩
  decide

/-- Claim C2: the engine merge (modelled from the spec, the reducers living
in the LangGraph library) appends node-returned messages after the existing
sequence — every prior message is preserved at its index — and overwrites
`customer_id` and `loaded_memory` exactly when the delta names them, leaving
them unchanged otherwise. -/
theorem C2_merge_append_only :
    ∀ (s : AgentState) (d : StateDelta),
      (mergeDelta s d).messages = s.messages ++ d.messages
      ∧ s.messages <+: (mergeDelta s d).messages
      ∧ (∀ i : Nat, i < s.messages.length → (mergeDelta s d).messages[i]? = s.messages[i]?)
      ∧ (∀ v, d.customer_id = some v → (mergeDelta s d).customer_id = some v)
      ∧ (d.customer_id = none → (mergeDelta s d).customer_id = s.customer_id)
      ∧ (∀ v, d.loaded_memory = some v → (mergeDelta s d).loaded_memory = v)
      ∧ (d.loaded_memory = none → (mergeDelta s d).loaded_memory = s.loaded_memory)
      ∧ (mergeDelta s d).remaining_steps = s.remaining_steps := by
  intro s d
  refine ⟨rfl, ⟨d.messages, rfl⟩, ?_, ?_, ?_, ?_, ?_, rfl⟩
  · intro i hi
    show (s.messages ++ d.messages)[i]? = s.messages[i]?
    rw [List.getElem?_append, if_pos hi]
  · intro v hv
    simp [mergeDelta, hv]
  · intro hv
    simp [mergeDelta, hv]
  · intro v hv
    simp [mergeDelta, hv]
  · intro hv
    simp [mergeDelta, hv]

/-- Witness for C2 at a concrete state and delta. -/
theorem C2_merge_append_only_witness :
    (mergeDelta ⟨none, [⟨Role.user, "hi"⟩], "", 25⟩
        ⟨some "1", [⟨Role.system, "ok"⟩], none⟩).messages[0]?
      = ([⟨Role.user, "hi"⟩] : List Message)[0]?
    ∧ (mergeDelta ⟨none, [⟨Role.user, "hi"⟩], "", 25⟩
        ⟨some "1", [⟨Role.system, "ok"⟩], none⟩).customer_id = some "1" := by
  have h := C2_merge_append_only ⟨none, [⟨Role.user, "hi"⟩], "", 25⟩
    ⟨some "1", [⟨Role.system, "ok"⟩], none⟩
  exact ⟨h.2.2.1 0 (by decide), h.2.2.2.1 "1" rfl⟩

/-- Claim C5, counterexample (in the engine loop modelled from spec §4.2):
with `remainingSteps = 3`, the self-routing graph fails with
`StepBudgetExceededError` after exactly 2 completed node executions, not 3 —
the budget is decremented at the top of each loop iteration, before the node
runs, so the third iteration fails without executing. -/
theorem C5_counterexample :
    runSpec selfLoopGraph "n" budget3State
      = ⟨.failed .stepBudgetExceeded, 2⟩
    ∧ (runSpec selfLoopGraph "n" budget3State).execCount ≠ 3 := by
  refine ⟨rfl, ?_⟩
  decide

/-- Claim C5, amended: with `remainingSteps = 3`, the always-self-routing
graph fails with `StepBudgetExceededError` on the third loop iteration,
after exactly 2 completed node executions; and the budget bounds every run —
the loop never completes more than `remainingSteps` node executions. -/
theorem C5_amended_step_budget :
    runSpec selfLoopGraph "n" budget3State = ⟨.failed .stepBudgetExceeded, 2⟩
    ∧ ∀ (g : SpecGraph) (rem : Nat) (cur : String) (s : AgentState) (execs : Nat),
        (runLoop g rem cur s execs).execCount ≤ execs + rem := by
  refine ⟨rfl, ?_⟩
  intro g rem
  induction rem with
  | zero =>
      intro cur s execs
      simp [runLoop]
  | succ r ih =>
      intro cur s execs
      simp only [runLoop]
      repeat' split
      all_goals first
        | exact le_trans (ih _ _ _) (by omega)
        | (dsimp only; omega)

/-- Claim C7: the decision function `should_interrupt` always returns a label
present in the conditional edge's label map — `"continue"` exactly when
`customer_id` is set (routing to `load_memory`) and `"interrupt"` exactly
when it is not (routing to `human_input`) — and it is deterministic in the
State. -/
theorem C7_should_interrupt_routing :
    (∀ s : AgentState,
        (should_interrupt s = "continue" ↔ s.customer_id ≠ none)
        ∧ (should_interrupt s = "interrupt" ↔ s.customer_id = none)
        ∧ (verifyInfoLabelMap.lookup (should_interrupt s)).isSome = true
        ∧ (s.customer_id ≠ none →
            verifyInfoLabelMap.lookup (should_interrupt s) = some "load_memory")
        ∧ (s.customer_id = none →
            verifyInfoLabelMap.lookup (should_interrupt s) = some "human_input"))
    ∧ ∀ s t : AgentState, s = t → should_interrupt s = should_interrupt t := by
  constructor
  · intro s
    cases hc : s.customer_id with
    | none =>
        simp only [should_interrupt, hc]
        exact ⟨by decide, by decide, by decide, fun h => absurd rfl h, fun _ => by decide⟩
    | some v =>
        simp only [should_interrupt, hc]
        refine ⟨by simp, by simp, by decide, fun _ => by decide, fun h => by simp at h⟩
  · intro s t h
    rw [h]

/-- Witness for C7 at concrete states with `customer_id` set and unset. -/
theorem C7_should_interrupt_routing_witness :
    verifyInfoLabelMap.lookup (should_interrupt ⟨some "1", [], "", 25⟩) = some "load_memory"
    ∧ verifyInfoLabelMap.lookup (should_interrupt ⟨none, [], "", 25⟩) = some "human_input"
    ∧ should_interrupt ⟨none, [], "", 25⟩ = should_interrupt ⟨none, [], "", 25⟩ := by
  refine ⟨((C7_should_interrupt_routing.1 ⟨some "1", [], "", 25⟩).2.2.2.1 (by decide)),
    ((C7_should_interrupt_routing.1 ⟨none, [], "", 25⟩).2.2.2.2 rfl),
    C7_should_interrupt_routing.2 _ _ rfl⟩

/-- A graph behaviour for a thread with no pending interrupt: the resume
command raises (as `invoke(Command(resume=...))` does when nothing is
suspended), and only a fresh invocation carrying the resume payload `"1"` as
a user message succeeds. -/
def noPendingInterruptGraph : GraphInput → InvokeOutcome
  | .resumeCmd _ => .errorExc "No pending interrupt to resume"
  | .initialMessages msgs =>
      if msgs = [⟨Role.user, "1"⟩] then .success [⟨Role.assistant, "ok"⟩]
      else .errorExc "unexpected input"

/-- Claim C3, counterexample: resuming a thread with no pending interrupt is
not rejected with `NoPendingInterruptError` — `run_agent_with_input` catches
the failed resume and starts a fresh run with the resume payload as input,
here returning that fresh run's successful result (the oracle succeeds only
on the fresh invocation carrying the payload as a user message, so status
`"complete"` proves that invocation happened). -/
theorem C3_counterexample :
    run_agent_with_input noPendingInterruptGraph "" (some "t1") "t1" (some "1")
      = { status := "complete", result := some [⟨Role.assistant, "ok"⟩],
          message := none, thread_id := "t1" }
    ∧ (run_agent_with_input noPendingInterruptGraph "" (some "t1") "t1" (some "1")).status
        ≠ "error" := by
  refine ⟨rfl, ?_⟩
  decide

/-- Claim C3, amended: `NoPendingInterruptError` does not exist in the code;
whenever the resume invocation raises (in particular on a thread with no
pending interrupt), `run_agent_with_input` falls back to a fresh graph
invocation with the resume payload wrapped as a user message and returns
that invocation's result. -/
theorem C3_amended_resume_fallback :
    ∀ (invoke : GraphInput → InvokeOutcome) (ui : String) (tid : Option String)
      (fid r em : String),
      invoke (.resumeCmd r) = .errorExc em →
      run_agent_with_input invoke ui tid fid (some r)
        = outcomeToResult (invoke (.initialMessages [⟨Role.user, r⟩])) (resolveTid tid fid) := by
  intro invoke ui tid fid r em h
  simp only [run_agent_with_input, h]

/-- Witness for C3's amended theorem at the concrete no-pending-interrupt
behaviour. -/
theorem C3_amended_resume_fallback_witness :
    run_agent_with_input noPendingInterruptGraph "" (some "t1") "t1" (some "1")
      = outcomeToResult (noPendingInterruptGraph (.initialMessages [⟨Role.user, "1"⟩]))
          (resolveTid (some "t1") "t1") :=
  C3_amended_resume_fallback noPendingInterruptGraph "" (some "t1") "t1" "1"
    "No pending interrupt to resume" rfl

/-- A graph behaviour whose every invocation raises a non-interrupt
exception. -/
def alwaysFailingGraph : GraphInput → InvokeOutcome :=
  fun _ => .errorExc "Connection refused"

/-- Claim C4, counterexample: when the resume run fails, `ChatResumeView`
re-submits the user's message as a fresh invocation ("Try again with a fresh
conversation") before returning — the engine's calling layer does retry a
failed resume, contradicting the claim's "never re-submitted" part. -/
theorem C4_counterexample :
    chatResumeEngineCalls alwaysFailingGraph "t1" "hello"
      = [⟨none, some "hello"⟩, ⟨some "hello", none⟩]
    ∧ (chatResumeEngineCalls alwaysFailingGraph "t1" "hello").length ≠ 1 := by
  refine ⟨rfl, ?_⟩
  decide

/-- Claim C4, amended: an uncaught exception escaping the graph invocation
yields an `"error"` result (the thread's Failed outcome) carrying the
exception's message verbatim; but the failure is not left un-retried — on an
error result `ChatResumeView` re-submits the user's message as a fresh
invocation before surfacing the error (and `run_agent_with_input` itself
already re-submits a failed resume as a fresh run). -/
theorem C4_amended_error_surfaced_but_retried :
    (∀ (invoke : GraphInput → InvokeOutcome) (ui : String) (tid : Option String)
        (fid em : String),
        invoke (.initialMessages [⟨Role.user, ui⟩]) = .errorExc em →
        run_agent_with_input invoke ui tid fid none
          = { status := "error", result := none, message := some em,
              thread_id := resolveTid tid fid })
    ∧ (∀ (invoke : GraphInput → InvokeOutcome) (thread_id message : String),
        (run_agent_with_input invoke "" (some thread_id) thread_id (some message)).status
            = "error" →
        chatResumeEngineCalls invoke thread_id message
          = [⟨none, some message⟩, ⟨some message, none⟩]) := by
  constructor
  · intro invoke ui tid fid em h
    simp only [run_agent_with_input, h, outcomeToResult]
  · intro invoke thread_id message h
    simp only [chatResumeEngineCalls, h]
    rfl

/-- Witness for C4's amended theorem at the always-failing graph. -/
theorem C4_amended_error_surfaced_but_retried_witness :
    run_agent_with_input alwaysFailingGraph "hello" (some "t1") "t1" none
      = { status := "error", result := none, message := some "Connection refused",
          thread_id := resolveTid (some "t1") "t1" }
    ∧ chatResumeEngineCalls alwaysFailingGraph "t1" "hello"
        = [⟨none, some "hello"⟩, ⟨some "hello", none⟩] :=
  ⟨C4_amended_error_surfaced_but_retried.1 alwaysFailingGraph "hello" (some "t1") "t1"
      "Connection refused" rfl,
   C4_amended_error_surfaced_but_retried.2 alwaysFailingGraph "t1" "hello" rfl⟩

/-- Every outcome maps to exactly one of the three statuses, with the result
attached on completion and the message attached on interrupt/error. -/
theorem outcomeToResult_status (o : InvokeOutcome) (tid : String) :
    ((outcomeToResult o tid).status = "complete"
      ∨ (outcomeToResult o tid).status = "interrupted"
      ∨ (outcomeToResult o tid).status = "error")
    ∧ ((outcomeToResult o tid).status = "complete"
        → (outcomeToResult o tid).result.isSome = true)
    ∧ ((outcomeToResult o tid).status = "interrupted"
        → (outcomeToResult o tid).message.isSome = true)
    ∧ ((outcomeToResult o tid).status = "error"
        → (outcomeToResult o tid).message.isSome = true) := by
  cases o <;> simp [outcomeToResult]

/-- `outcomeToResult` always carries the thread id it is given. -/
theorem outcomeToResult_thread_id (o : InvokeOutcome) (tid : String) :
    (outcomeToResult o tid).thread_id = tid := by
  cases o <;> rfl

/-- Claim C6: for every graph behaviour and every invocation,
`run_agent_with_input` returns a status that is exactly one of `"complete"`,
`"interrupted"`, or `"error"`, with the final result attached on completion
and the message attached on interruption. -/
theorem C6_run_status_total :
    ∀ (invoke : GraphInput → InvokeOutcome) (ui : String) (tid : Option String)
      (fid : String) (ri : Option String),
      ((run_agent_with_input invoke ui tid fid ri).status = "complete"
        ∨ (run_agent_with_input invoke ui tid fid ri).status = "interrupted"
        ∨ (run_agent_with_input invoke ui tid fid ri).status = "error")
      ∧ ((run_agent_with_input invoke ui tid fid ri).status = "complete"
          → (run_agent_with_input invoke ui tid fid ri).result.isSome = true)
      ∧ ((run_agent_with_input invoke ui tid fid ri).status = "interrupted"
          → (run_agent_with_input invoke ui tid fid ri).message.isSome = true)
      ∧ ((run_agent_with_input invoke ui tid fid ri).status = "error"
          → (run_agent_with_input invoke ui tid fid ri).message.isSome = true) := by
  intro invoke ui tid fid ri
  exact outcomeToResult_status _ _

/-- Witness for C6 at a concrete graph behaviour. -/
theorem C6_run_status_total_witness :
    ((run_agent_with_input (fun _ => .success []) "hi" none "f" none).status = "complete"
      ∨ (run_agent_with_input (fun _ => .success []) "hi" none "f" none).status = "interrupted"
      ∨ (run_agent_with_input (fun _ => .success []) "hi" none "f" none).status = "error")
    ∧ (run_agent_with_input (fun _ => .success []) "hi" none "f" none).result.isSome = true :=
  ⟨(C6_run_status_total (fun _ => .success []) "hi" none "f" none).1,
   (C6_run_status_total (fun _ => .success []) "hi" none "f" none).2.1 rfl⟩

/-- Claim C8: when the caller supplies no thread id (or the falsy empty
string), the freshly generated identifier is used and returned; a supplied
non-empty thread id is used unchanged; and whatever the outcome, the result
carries the thread id the run executed under. -/
theorem C8_thread_id_resolution :
    ∀ (invoke : GraphInput → InvokeOutcome) (ui fid : String) (ri : Option String),
      ((run_agent_with_input invoke ui none fid ri).thread_id = fid)
      ∧ ((run_agent_with_input invoke ui (some "") fid ri).thread_id = fid)
      ∧ (∀ t : String, t ≠ "" →
          (run_agent_with_input invoke ui (some t) fid ri).thread_id = t)
      ∧ (∀ tid : Option String,
          (run_agent_with_input invoke ui tid fid ri).thread_id = resolveTid tid fid) := by
  intro invoke ui fid ri
  refine ⟨?_, ?_, ?_, ?_⟩
  · exact outcomeToResult_thread_id _ _
  · exact (outcomeToResult_thread_id _ _).trans (by simp [resolveTid])
  · intro t ht
    exact (outcomeToResult_thread_id _ _).trans (by simp [resolveTid, ht])
  · intro tid
    exact outcomeToResult_thread_id _ _

/-- Witness for C8 at a concrete graph behaviour and thread ids. -/
theorem C8_thread_id_resolution_witness :
    (run_agent_with_input (fun _ => .success []) "hi" none "fresh-uuid" none).thread_id
        = "fresh-uuid"
    ∧ (run_agent_with_input (fun _ => .success []) "hi" (some "t1") "fresh-uuid" none).thread_id
        = "t1" :=
  ⟨(C8_thread_id_resolution (fun _ => .success []) "hi" "fresh-uuid" none).1,
   (C8_thread_id_resolution (fun _ => .success []) "hi" "fresh-uuid" none).2.2.1 "t1"
     (by decide)⟩

/-- Every branch of `music_assistant` returns a single-assistant-message
delta. -/
theorem music_assistant_shape (t : String → List String → Except String String)
    (s : AgentState) : ∃ r, (music_assistant t s).1 = assistantDelta r := by
  unfold music_assistant
  repeat' split
  all_goals exact ⟨_, rfl⟩

/-- Every branch of `invoice_assistant` returns a single-assistant-message
delta. -/
theorem invoice_assistant_shape (t : String → List String → Except String String)
    (s : AgentState) : ∃ r, (invoice_assistant t s).1 = assistantDelta r := by
  unfold invoice_assistant
  dsimp only
  repeat' split
  all_goals exact ⟨_, rfl⟩

/-- Claim C9: when `customer_id` is absent from the State, the
invoice-handling node resolves the account to the hardcoded default `"1"`
(`state.get("customer_id", "1")`), every invoice tool call it issues carries
`"1"` as its customer argument, and the node answers normally (one assistant
message) rather than failing or requesting verification. -/
theorem C9_invoice_defaults_to_account_1 :
    ∀ (t : String → List String → Except String String) (s : AgentState),
      s.customer_id = none →
      s.customer_id.getD "1" = "1"
      ∧ (∀ c ∈ (invoice_assistant t s).2, c.args.getLast? = some "1")
      ∧ (∃ r, (invoice_assistant t s).1 = assistantDelta r) := by
  intro t s h
  refine ⟨by rw [h]; rfl, ?_, invoice_assistant_shape t s⟩
  unfold invoice_assistant
  rw [h]
  dsimp only
  repeat' split
  all_goals intro c hc
  all_goals simp only [List.mem_singleton, List.not_mem_nil] at hc
  all_goals first
    | exact absurd hc (fun h => h)
    | (subst hc; rfl)

/-- Witness for C9 at a concrete tool behaviour and customer-less State. -/
theorem C9_invoice_defaults_to_account_1_witness :
    (∀ c ∈ (invoice_assistant (fun _ _ => Except.ok "row")
        ⟨none, [⟨Role.user, "show my invoices"⟩], "", 25⟩).2,
      c.args.getLast? = some "1")
    ∧ ∃ r, (invoice_assistant (fun _ _ => Except.ok "row")
        ⟨none, [⟨Role.user, "show my invoices"⟩], "", 25⟩).1 = assistantDelta r :=
  ⟨(C9_invoice_defaults_to_account_1 (fun _ _ => Except.ok "row")
      ⟨none, [⟨Role.user, "show my invoices"⟩], "", 25⟩ rfl).2.1,
   (C9_invoice_defaults_to_account_1 (fun _ _ => Except.ok "row")
      ⟨none, [⟨Role.user, "show my invoices"⟩], "", 25⟩ rfl).2.2⟩

/-- Claim C10: for every input State and every tool behaviour, both
sub-assistant nodes return a delta containing exactly one assistant message
(no exception ever propagates past the node boundary), and a raised tool
error is converted into the node's apologetic assistant message. -/
theorem C10_nodes_total_single_assistant_message :
    (∀ (t : String → List String → Except String String) (s : AgentState),
        (music_assistant t s).1.messages.length = 1
        ∧ ∀ m ∈ (music_assistant t s).1.messages, m.role = Role.assistant)
    ∧ (∀ (t : String → List String → Except String String) (s : AgentState),
        (invoice_assistant t s).1.messages.length = 1
        ∧ ∀ m ∈ (invoice_assistant t s).1.messages, m.role = Role.assistant)
    ∧ (∀ (em : String) (s : AgentState) (name param : String),
        musicSelect (lastUserInput s "Tell me about music") = .tool name param →
        (music_assistant (fun _ _ => Except.error em) s).1
          = assistantDelta ("I tried to search for information about " ++ param
              ++ ", but encountered an error. Could you please try a different search or rephrase your question?"))
    ∧ (∀ (em : String) (s : AgentState),
        (invoice_assistant (fun _ _ => Except.error em) s).1
          = assistantDelta "I tried to retrieve your invoice information, but encountered an error. Could you please try again later?") := by
  refine ⟨?_, ?_, ?_, ?_⟩
  · intro t s
    obtain ⟨r, hr⟩ := music_assistant_shape t s
    rw [hr]
    simp [assistantDelta]
  · intro t s
    obtain ⟨r, hr⟩ := invoice_assistant_shape t s
    rw [hr]
    simp [assistantDelta]
  · intro em s name param h
    simp only [music_assistant, h]
  · intro em s
    unfold invoice_assistant
    dsimp only
    repeat' split
    all_goals rfl

/-- Witness for C10 at concrete States and an always-raising tool. -/
theorem C10_nodes_total_single_assistant_message_witness :
    (music_assistant (fun _ _ => Except.error "db down")
        ⟨none, [⟨Role.user, "play the song Yesterday"⟩], "", 25⟩).1.messages.length = 1
    ∧ (music_assistant (fun _ _ => Except.error "db down")
        ⟨none, [⟨Role.user, "play the song Yesterday"⟩], "", 25⟩).1
      = assistantDelta "I tried to search for information about Yesterday, but encountered an error. Could you please try a different search or rephrase your question?" :=
  ⟨(C10_nodes_total_single_assistant_message.1 (fun _ _ => Except.error "db down")
      ⟨none, [⟨Role.user, "play the song Yesterday"⟩], "", 25⟩).1,
   C10_nodes_total_single_assistant_message.2.2.1 "db down"
      ⟨none, [⟨Role.user, "play the song Yesterday"⟩], "", 25⟩ "check_for_songs" "Yesterday"
      (by rfl)⟩

end AgentsApp
